import Mathlib

/-
  Verification of the MantleMusicFi AI-service scoring engine.

  Shallow embedding of the credit-scoring, risk-assessment and batch
  endpoints of src/ai-service/src/api/{credit_scoring,risk_assessment,
  revenue_prediction}.py.  Python floats are modelled as rationals;
  np.log10 is threaded through as an abstract function argument lg
  (every claim proved here holds for an arbitrary lg); np.random draws
  are threaded through as explicit rational arguments or draw streams,
  which makes the source's nondeterminism visible as extra inputs.
  Python int() truncation toward zero is pyInt; Python dicts are
  association lists with in-place-overwrite insertion (dictInsert).
-/

set_option maxHeartbeats 1600000

namespace MMF

/-- Python int(x): truncation toward zero. -/
def pyInt (q : ℚ) : ℤ := if 0 ≤ q then ⌊q⌋ else ⌈q⌉

/-- Association-list lookup with default: Python dict.get(k, d). -/
def dictGetD {κ ν : Type} [DecidableEq κ] : List (κ × ν) → κ → ν → ν
  | [], _, d => d
  | (k1, v1) :: rest, k, d => if k1 = k then v1 else dictGetD rest k d

/-- Python dict assignment d[k] = v: overwrite in place if present, else append. -/
def dictInsert {κ ν : Type} [DecidableEq κ] : List (κ × ν) → κ → ν → List (κ × ν)
  | [], k, v => [(k, v)]
  | (k1, v1) :: rest, k, v =>
      if k1 = k then (k, v) :: rest else (k1, v1) :: dictInsert rest k v

/-- Python max(l) for a nonempty list (raises on empty; callers guard). -/
def listMax : List ℚ → ℚ
  | [] => 0
  | x :: xs => xs.foldl max x

namespace Credit

/- ===== Data model: credit_scoring.py ===== -/

inductive UserType where
  | artist | investor | label | producer
deriving DecidableEq, Repr

inductive RiskLevel where
  | low | medium | high | very_high
deriving DecidableEq, Repr

inductive CreditGrade where
  | AAA | AA | A | BBB | BB | B | CCC | CC | C | D
deriving DecidableEq, Repr

/-- FinancialHistory (revenue_history / payment_history lists are read by no
    embedded function and are elided). -/
structure FinancialHistory where
  total_revenue : ℚ
  defaults : ℤ
  late_payments : ℤ
  total_transactions : ℤ
  average_transaction_size : ℚ
deriving DecidableEq, Repr

structure ArtistMetrics where
  total_streams : ℤ
  monthly_listeners : ℤ
  follower_count : ℤ
  engagement_rate : ℚ
  release_frequency : ℚ
  collaboration_count : ℤ
  awards_count : ℤ
deriving DecidableEq, Repr

structure InvestorMetrics where
  total_invested : ℚ
  portfolio_size : ℤ
  successful_investments : ℤ
  failed_investments : ℤ
  average_roi : ℚ
  investment_duration_avg : ℚ
  diversification_score : ℚ
deriving DecidableEq, Repr

structure BlockchainMetrics where
  wallet_age : ℤ
  transaction_count : ℤ
  total_volume : ℚ
  smart_contract_interactions : ℤ
  defi_participation : Bool
  governance_participation : ℤ
  staking_amount : ℚ
deriving DecidableEq, Repr

structure SocialMetrics where
  social_media_followers : List (String × ℤ)
  social_engagement_rate : ℚ
  community_reputation : ℚ
  verified_accounts : ℤ
  negative_sentiment_ratio : ℚ
deriving DecidableEq, Repr

structure CreditScoreRequest where
  user_id : String
  user_type : UserType
  financial_history : FinancialHistory
  artist_metrics : Option ArtistMetrics
  investor_metrics : Option InvestorMetrics
  blockchain_metrics : BlockchainMetrics
  social_metrics : SocialMetrics
deriving DecidableEq, Repr

/- ===== CreditScoringModel configuration ===== -/

/-- self.artist_weights (note the additional_factors entry, which no
    sub-scorer ever feeds). -/
def artist_weights : List (String × ℚ) :=
  [("financial_history", 35/100), ("artist_metrics", 25/100),
   ("blockchain_metrics", 20/100), ("social_metrics", 15/100),
   ("additional_factors", 5/100)]

/-- self.investor_weights. -/
def investor_weights : List (String × ℚ) :=
  [("financial_history", 40/100), ("investor_metrics", 30/100),
   ("blockchain_metrics", 20/100), ("social_metrics", 10/100)]

/-- self.risk_thresholds, in dict insertion order. -/
def risk_thresholds : List (RiskLevel × ℤ) :=
  [(.low, 700), (.medium, 600), (.high, 500), (.very_high, 0)]

/-- self.grade_thresholds, in dict insertion order. -/
def grade_thresholds : List (CreditGrade × ℤ) :=
  [(.AAA, 800), (.AA, 750), (.A, 700), (.BBB, 650), (.BB, 600),
   (.B, 550), (.CCC, 500), (.CC, 450), (.C, 400), (.D, 0)]

/- ===== Sub-scorers ===== -/

/-- CreditScoringModel._calculate_financial_score. -/
def calculate_financial_score (f : FinancialHistory) : ℚ :=
  let score : ℚ := 500
  let score := if f.total_revenue > 0
    then score + min 100 (f.total_revenue / 10000) else score
  let score := if f.total_transactions > 0
    then score +
      (1 - ((f.defaults : ℚ) + (f.late_payments : ℚ)) / (f.total_transactions : ℚ)) * 150
    else score
  let score := if f.average_transaction_size > 0
    then score + min 50 (f.average_transaction_size / 100) else score
  max 300 (min 850 score)

/-- CreditScoringModel._calculate_artist_score; lg abstracts np.log10. -/
def calculate_artist_score (lg : ℚ → ℚ) (a : ArtistMetrics) : ℚ :=
  let score : ℚ := 500
  let score := if a.total_streams > 0
    then score + min 100 (lg (a.total_streams : ℚ) * 10) else score
  let score := if a.follower_count > 0
    then score + min 80 (lg (a.follower_count : ℚ) * 15) else score
  let score := score + a.engagement_rate * 50
  let score := score + min 30 (a.release_frequency * 10)
  let score := score + min 40 ((a.collaboration_count : ℚ) * 2)
  let score := score + min 50 ((a.awards_count : ℚ) * 10)
  max 300 (min 850 score)

/-- CreditScoringModel._calculate_investor_score. -/
def calculate_investor_score (i : InvestorMetrics) : ℚ :=
  let score : ℚ := 500
  let score := if i.total_invested > 0
    then score + min 100 (i.total_invested / 50000) else score
  let score := score + min 50 ((i.portfolio_size : ℚ) * 2)
  let score := if i.successful_investments + i.failed_investments > 0
    then score + (i.successful_investments : ℚ) /
      ((i.successful_investments : ℚ) + (i.failed_investments : ℚ)) * 100
    else score
  let score := if i.average_roi > 0
    then score + min 80 (i.average_roi * 100) else score
  let score := score + i.diversification_score * 70
  max 300 (min 850 score)

/-- CreditScoringModel._calculate_blockchain_score; lg abstracts np.log10. -/
def calculate_blockchain_score (lg : ℚ → ℚ) (b : BlockchainMetrics) : ℚ :=
  let score : ℚ := 500
  let score := score + min 50 ((b.wallet_age : ℚ) / 10)
  let score := if b.transaction_count > 0
    then score + min 80 (lg (b.transaction_count : ℚ) * 20) else score
  let score := if b.total_volume > 0
    then score + min 70 (lg b.total_volume * 15) else score
  let score := if b.defi_participation then score + 30 else score
  let score := score + min 40 ((b.governance_participation : ℚ) * 5)
  let score := if b.staking_amount > 0
    then score + min 30 (b.staking_amount / 1000) else score
  max 300 (min 850 score)

/-- CreditScoringModel._calculate_social_score; lg abstracts np.log10. -/
def calculate_social_score (lg : ℚ → ℚ) (s : SocialMetrics) : ℚ :=
  let score : ℚ := 500
  let total_followers : ℤ := (s.social_media_followers.map Prod.snd).sum
  let score := if total_followers > 0
    then score + min 80 (lg (total_followers : ℚ) * 15) else score
  let score := score + s.social_engagement_rate * 60
  let score := score + s.community_reputation * 50
  let score := score + (s.verified_accounts : ℚ) * 20
  let score := score - s.negative_sentiment_ratio * 100
  max 300 (min 850 score)

/- ===== Classification, confidence, aggregation ===== -/

/-- The for-loop of _determine_credit_grade / _determine_risk_level:
    return the first label whose threshold the score meets (score >= threshold). -/
def firstAtLeast {α : Type} (fallback : α) : List (α × ℤ) → ℤ → α
  | [], _ => fallback
  | (g, t) :: rest, s => if s ≥ t then g else firstAtLeast fallback rest s

/-- CreditScoringModel._determine_credit_grade. -/
def determine_credit_grade (s : ℤ) : CreditGrade :=
  firstAtLeast .D grade_thresholds s

/-- CreditScoringModel._determine_risk_level (credit module, 4 levels). -/
def determine_risk_level (s : ℤ) : RiskLevel :=
  firstAtLeast .very_high risk_thresholds s

/-- CreditScoringModel._calculate_confidence. -/
def calculate_confidence (r : CreditScoreRequest) : ℚ :=
  let confidence : ℚ := 1/2
  let confidence := if r.financial_history.total_transactions > 10
    then confidence + 2/10 else confidence
  let confidence := if r.blockchain_metrics.transaction_count > 50
    then confidence + 15/100 else confidence
  let confidence := if r.social_metrics.social_media_followers ≠ []
    then confidence + 1/10 else confidence
  let confidence :=
    match r.user_type, r.artist_metrics with
    | .artist, some a => if a.total_streams > 1000 then confidence + 5/100 else confidence
    | _, _ => confidence
  min 1 confidence

structure CreditResult where
  credit_score : ℤ
  credit_grade : CreditGrade
  risk_level : RiskLevel
  confidence : ℚ
  score_breakdown : List (String × ℚ)
deriving DecidableEq, Repr

/-- CreditScoringModel.calculate_credit_score (the score computation;
    factor lists, recommendations and timestamps are read by no claim). -/
def calculate_credit_score (lg : ℚ → ℚ) (r : CreditScoreRequest) : CreditResult :=
  let weights := if r.user_type = .artist then artist_weights else investor_weights
  let financial_score := calculate_financial_score r.financial_history
  let blockchain_score := calculate_blockchain_score lg r.blockchain_metrics
  let social_score := calculate_social_score lg r.social_metrics
  let specific_score :=
    match r.user_type, r.artist_metrics, r.investor_metrics with
    | .artist, some a, _ => calculate_artist_score lg a
    | .investor, _, some i => calculate_investor_score i
    | _, _, _ => (500 : ℚ)
  let total_score :=
    financial_score * dictGetD weights "financial_history" 0 +
    specific_score *
      dictGetD weights "artist_metrics" (dictGetD weights "investor_metrics" 0) +
    blockchain_score * dictGetD weights "blockchain_metrics" 0 +
    social_score * dictGetD weights "social_metrics" 0
  let credit_score : ℤ := max 300 (min 850 (pyInt total_score))
  { credit_score := credit_score
    credit_grade := determine_credit_grade credit_score
    risk_level := determine_risk_level credit_score
    confidence := calculate_confidence r
    score_breakdown :=
      [("financial_history", financial_score), ("specific_metrics", specific_score),
       ("blockchain_metrics", blockchain_score), ("social_metrics", social_score),
       ("weighted_total", (credit_score : ℚ))] }

/-- Modelled from the spec: the renormalized credit aggregate the claim
    describes — the sum of (sub-score x weight) over the present categories
    divided by the sum of the present categories' weights.  The four
    categories with sub-scorers are always present; the artist profile's
    additional_factors category has no sub-scorer, so its weight is excluded
    from both numerator and denominator. -/
def claimRenormCreditScore (lg : ℚ → ℚ) (r : CreditScoreRequest) : ℤ :=
  let weights := if r.user_type = .artist then artist_weights else investor_weights
  let financial_score := calculate_financial_score r.financial_history
  let blockchain_score := calculate_blockchain_score lg r.blockchain_metrics
  let social_score := calculate_social_score lg r.social_metrics
  let specific_score :=
    match r.user_type, r.artist_metrics, r.investor_metrics with
    | .artist, some a, _ => calculate_artist_score lg a
    | .investor, _, some i => calculate_investor_score i
    | _, _, _ => (500 : ℚ)
  let wf := dictGetD weights "financial_history" 0
  let wsp := dictGetD weights "artist_metrics" (dictGetD weights "investor_metrics" 0)
  let wb := dictGetD weights "blockchain_metrics" 0
  let ws := dictGetD weights "social_metrics" 0
  let num := financial_score * wf + specific_score * wsp +
    blockchain_score * wb + social_score * ws
  max 300 (min 850 (pyInt (num / (wf + wsp + wb + ws))))

/-- Grade order: larger rank = better grade. -/
def gradeRank : CreditGrade → ℕ
  | .D => 0 | .C => 1 | .CC => 2 | .CCC => 3 | .B => 4
  | .BB => 5 | .BBB => 6 | .A => 7 | .AA => 8 | .AAA => 9

/-- The four data-sufficiency booleans of _calculate_confidence, in source
    order. -/
def confidence_signals (r : CreditScoreRequest) : Bool × Bool × Bool × Bool :=
  (decide (r.financial_history.total_transactions > 10),
   decide (r.blockchain_metrics.transaction_count > 50),
   decide (r.social_metrics.social_media_followers ≠ []),
   match r.user_type, r.artist_metrics with
   | .artist, some a => decide (a.total_streams > 1000)
   | _, _ => false)

/-- _calculate_confidence as a function of its sufficiency booleans. -/
def confidence_from_signals : Bool × Bool × Bool × Bool → ℚ
  | (b1, b2, b3, b4) =>
    min 1 (1/2 + (if b1 then 2/10 else 0) + (if b2 then 15/100 else 0) +
      (if b3 then 1/10 else 0) + (if b4 then 5/100 else 0))

/- ===== Concrete fixtures ===== -/

/-- An arbitrary instantiation of the abstract log10. -/
def lgZero : ℚ → ℚ := fun _ => 0

def fhZero : FinancialHistory := ⟨0, 0, 0, 0, 0⟩
def amZero : ArtistMetrics := ⟨0, 0, 0, 0, 0, 0, 0⟩
def bmZero : BlockchainMetrics := ⟨0, 0, 0, 0, false, 0, 0⟩
def smZero : SocialMetrics := ⟨[], 0, 0, 0, 0⟩

/-- Artist request whose metric bundles are all present and all zero. -/
def reqZeroArtist : CreditScoreRequest :=
  ⟨"u1", .artist, fhZero, some amZero, none, bmZero, smZero⟩

/-- Artist request whose artist_metrics field is absent. -/
def reqArtistNone : CreditScoreRequest :=
  ⟨"u2", .artist, fhZero, none, none, bmZero, smZero⟩

/-- Label request (user type outside artist/investor). -/
def reqLabel : CreditScoreRequest :=
  ⟨"u3", .label, fhZero, none, none, bmZero, smZero⟩

end Credit

namespace Risk

/- ===== Data model: risk_assessment.py ===== -/

inductive RiskType where
  | market | credit | liquidity | operational | regulatory | technology
deriving DecidableEq, Repr

inductive RiskLevel where
  | very_low | low | medium | high | very_high | extreme
deriving DecidableEq, Repr

inductive AssetType where
  | music_token | artist_share | royalty_stream | label_equity | platform_token
deriving DecidableEq, Repr

inductive TimeHorizon where
  | short_term | medium_term | long_term
deriving DecidableEq, Repr

/-- AssetInfo (fields read by the embedded functions). -/
structure AssetInfo where
  asset_id : String
  asset_type : AssetType
  current_price : ℚ
  market_cap : ℚ
  volume_24h : ℚ
deriving DecidableEq, Repr

/-- MarketData.  price_history entries are opaque dicts of which only the
    list length is ever read, so they are modelled as units. -/
structure MarketData where
  price_history : List Unit
  volatility : ℚ
  beta : ℚ
  correlation_matrix : List (String × ℚ)
  market_sentiment : ℚ
deriving DecidableEq, Repr

structure RiskAssessmentRequest where
  assessment_id : String
  asset_info : Option AssetInfo
  market_data : MarketData
  time_horizon : TimeHorizon
  risk_tolerance : ℚ
  assessment_types : List RiskType
deriving DecidableEq, Repr

/- ===== RiskAssessmentModel configuration ===== -/

/-- self.risk_weights. -/
def risk_weights : List (RiskType × ℚ) :=
  [(.market, 30/100), (.credit, 25/100), (.liquidity, 20/100),
   (.operational, 10/100), (.regulatory, 10/100), (.technology, 5/100)]

/-- self.risk_thresholds, in dict insertion order (ascending cutoffs). -/
def risk_thresholds : List (RiskLevel × ℚ) :=
  [(.very_low, 20), (.low, 40), (.medium, 60), (.high, 80),
   (.very_high, 95), (.extreme, 100)]

/-- self.time_decay. -/
def time_decay : TimeHorizon → ℚ
  | .short_term => 1
  | .medium_term => 8/10
  | .long_term => 6/10

/- ===== Per-category risk sub-scorers ===== -/

/-- RiskAssessmentModel._assess_market_risk (pure). -/
def assess_market_risk (r : RiskAssessmentRequest) : ℚ :=
  let score : ℚ := 50
  let score := if r.market_data.volatility > 0
    then score + min 40 (r.market_data.volatility * 100) else score
  let score := if |r.market_data.beta| > 1
    then score + min 20 ((|r.market_data.beta| - 1) * 20) else score
  let score := if r.market_data.market_sentiment < 0
    then score + |r.market_data.market_sentiment| * 30 else score
  let score := if r.market_data.correlation_matrix ≠ [] then
      let avg := (r.market_data.correlation_matrix.map Prod.snd).sum /
        (r.market_data.correlation_matrix.length : ℚ)
      if avg > 7/10 then score + (avg - 7/10) * 50 else score
    else score
  max 0 (min 100 score)

/-- The per-asset-type increment dict of _assess_credit_risk. -/
def asset_risk_map : List (AssetType × ℚ) :=
  [(.music_token, 40), (.artist_share, 35), (.royalty_stream, 25),
   (.label_equity, 30), (.platform_token, 45)]

/-- RiskAssessmentModel._assess_credit_risk (pure). -/
def assess_credit_risk (r : RiskAssessmentRequest) : ℚ :=
  let score : ℚ := 30
  let score :=
    match r.asset_info with
    | some a => score + dictGetD asset_risk_map a.asset_type 40
    | none => score
  let score :=
    match r.asset_info with
    | some a =>
        if a.market_cap > 0 then
          if a.market_cap < 1000000 then score + 30
          else if a.market_cap < 10000000 then score + 20
          else score + 10
        else score
    | none => score
  let score :=
    match r.asset_info with
    | some a =>
        if a.volume_24h > 0 then
          if a.volume_24h / a.market_cap < 1/100 then score + 25 else score
        else score
    | none => score
  max 0 (min 100 score)

/-- RiskAssessmentModel._assess_liquidity_risk; market_depth_draw stands for
    the np.random.uniform(10, 30) draw the source injects. -/
def assess_liquidity_risk (r : RiskAssessmentRequest) (market_depth_draw : ℚ) : ℚ :=
  let score : ℚ := 40
  let score :=
    match r.asset_info with
    | some a =>
        if a.volume_24h > 0 then
          if a.volume_24h < 10000 then score + 40
          else if a.volume_24h < 100000 then score + 25
          else score + 10
        else score
    | none => score
  let score := score + market_depth_draw
  let time_factor : ℚ :=
    match r.time_horizon with
    | .short_term => 12/10
    | .medium_term => 1
    | .long_term => 8/10
  let score := score * time_factor
  max 0 (min 100 score)

/-- RiskAssessmentModel._assess_operational_risk; the three draws stand for
    the np.random.uniform(10,30) / (5,20) / (5,15) draws the source injects —
    the request itself is never read. -/
def assess_operational_risk (r : RiskAssessmentRequest)
    (platform_draw tech_draw human_error_draw : ℚ) : ℚ :=
  let score : ℚ := 25
  let score := score + platform_draw
  let score := score + tech_draw
  let score := score + human_error_draw
  max 0 (min 100 score)

/-- The per-asset-type increment dict of _assess_regulatory_risk. -/
def regulatory_risk_map : List (AssetType × ℚ) :=
  [(.music_token, 30), (.artist_share, 40), (.royalty_stream, 20),
   (.label_equity, 35), (.platform_token, 45)]

/-- RiskAssessmentModel._assess_regulatory_risk; regional_draw stands for the
    np.random.uniform(10, 25) draw the source injects. -/
def assess_regulatory_risk (r : RiskAssessmentRequest) (regional_draw : ℚ) : ℚ :=
  let score : ℚ := 35
  let score :=
    match r.asset_info with
    | some a => score + dictGetD regulatory_risk_map a.asset_type 35
    | none => score
  let score := score + regional_draw
  max 0 (min 100 score)

/-- RiskAssessmentModel._assess_technology_risk; the three draws stand for
    the np.random.uniform(15,35) / (10,25) / (5,20) draws the source injects. -/
def assess_technology_risk (r : RiskAssessmentRequest)
    (contract_draw network_draw security_draw : ℚ) : ℚ :=
  let score : ℚ := 20
  let score := score + contract_draw
  let score := score + network_draw
  let score := score + security_draw
  max 0 (min 100 score)

/- ===== Aggregation, classification, confidence ===== -/

/-- RiskAssessmentModel._calculate_overall_risk.  The loop accumulating
    weighted_score and total_weight is the foldl; risk_scores is the dict of
    per-category scores in insertion order. -/
def calculate_overall_risk (risk_scores : List (RiskType × ℚ))
    (time_horizon : TimeHorizon) : ℚ :=
  let acc := risk_scores.foldl
    (fun (p : ℚ × ℚ) (e : RiskType × ℚ) =>
      let weight := dictGetD risk_weights e.1 (1/10)
      (p.1 + e.2 * weight, p.2 + weight))
    (0, 0)
  let overall_score := if acc.2 > 0 then acc.1 / acc.2 else 50
  let overall_score := overall_score * time_decay time_horizon
  max 0 (min 100 overall_score)

/-- The for-loop of _determine_risk_level: first level whose threshold the
    score is at most (score <= threshold), fallback EXTREME. -/
def firstAtMost (fallback : RiskLevel) : List (RiskLevel × ℚ) → ℚ → RiskLevel
  | [], _ => fallback
  | (l, t) :: rest, s => if s ≤ t then l else firstAtMost fallback rest s

/-- RiskAssessmentModel._determine_risk_level. -/
def determine_risk_level (s : ℚ) : RiskLevel :=
  firstAtMost .extreme risk_thresholds s

/-- Risk order: larger rank = higher risk. -/
def riskRank : RiskLevel → ℕ
  | .very_low => 0 | .low => 1 | .medium => 2
  | .high => 3 | .very_high => 4 | .extreme => 5

/-- RiskAssessmentModel._calculate_confidence. -/
def calculate_confidence (r : RiskAssessmentRequest) : ℚ :=
  let confidence : ℚ := 1/2
  let confidence := if r.market_data.price_history.length > 30
    then confidence + 2/10 else confidence
  let confidence := if r.market_data.volatility > 0
    then confidence + 1/10 else confidence
  let confidence :=
    match r.asset_info with
    | some a => if a.market_cap > 0 then confidence + 1/10 else confidence
    | none => confidence
  let confidence := if r.assessment_types.length ≥ 4
    then confidence + 1/10 else confidence
  min 1 confidence

/-- The four data-sufficiency booleans of the risk _calculate_confidence, in
    source order. -/
def confidence_signals (r : RiskAssessmentRequest) : Bool × Bool × Bool × Bool :=
  (decide (r.market_data.price_history.length > 30),
   decide (r.market_data.volatility > 0),
   match r.asset_info with
   | some a => decide (a.market_cap > 0)
   | none => false,
   decide (r.assessment_types.length ≥ 4))

/-- The risk _calculate_confidence as a function of its sufficiency booleans. -/
def confidence_from_signals : Bool × Bool × Bool × Bool → ℚ
  | (b1, b2, b3, b4) =>
    min 1 (1/2 + (if b1 then 2/10 else 0) + (if b2 then 1/10 else 0) +
      (if b3 then 1/10 else 0) + (if b4 then 1/10 else 0))

/- ===== assess_risk: per-request score pipeline ===== -/

/-- Pop the next np.random draw off an explicit stream. -/
def takeDraw : List ℚ → ℚ × List ℚ
  | [] => (0, [])
  | d :: rest => (d, rest)

/-- One iteration of the assess_risk dispatch loop: the sub-score for one
    requested risk type, consuming that sub-scorer's random draws. -/
def assessOne (r : RiskAssessmentRequest) (rt : RiskType) (rng : List ℚ) :
    ℚ × List ℚ :=
  match rt with
  | .market => (assess_market_risk r, rng)
  | .credit => (assess_credit_risk r, rng)
  | .liquidity =>
      let (d, rng1) := takeDraw rng
      (assess_liquidity_risk r d, rng1)
  | .operational =>
      let (d1, rng1) := takeDraw rng
      let (d2, rng2) := takeDraw rng1
      let (d3, rng3) := takeDraw rng2
      (assess_operational_risk r d1 d2 d3, rng3)
  | .regulatory =>
      let (d, rng1) := takeDraw rng
      (assess_regulatory_risk r d, rng1)
  | .technology =>
      let (d1, rng1) := takeDraw rng
      let (d2, rng2) := takeDraw rng1
      let (d3, rng3) := takeDraw rng2
      (assess_technology_risk r d1 d2 d3, rng3)

/-- The risk_scores dict built by assess_risk over the requested types. -/
def assessScoresLoop (r : RiskAssessmentRequest) :
    List RiskType → List (RiskType × ℚ) → List ℚ → List (RiskType × ℚ)
  | [], acc, _ => acc
  | rt :: rest, acc, rng =>
      let (s, rng1) := assessOne r rt rng
      assessScoresLoop r rest (dictInsert acc rt s) rng1

/-- The overall_risk_score returned by RiskAssessmentModel.assess_risk. -/
def assess_risk_score (rng : List ℚ) (r : RiskAssessmentRequest) : ℚ :=
  calculate_overall_risk (assessScoresLoop r r.assessment_types [] rng)
    r.time_horizon

/- ===== Concrete fixtures ===== -/

def mdZero : MarketData := ⟨[], 0, 0, [], 0⟩

/-- Request with zero market data and only operational risk requested. -/
def reqRiskOp : RiskAssessmentRequest :=
  ⟨"a1", none, mdZero, .short_term, 0, [.operational]⟩

/- ===== perform_stress_test endpoint ===== -/

/-- One asset-scenario cell of the stress test. -/
structure StressEntry where
  potential_loss : ℚ
  recovery_time_days : ℚ
  probability : ℚ
deriving DecidableEq, Repr

/-- One scenario row of portfolio_impact. -/
structure PortfolioEntry where
  average_loss : ℚ
  worst_case_loss : ℚ
  correlation_adjustment : ℚ
deriving DecidableEq, Repr

/-- The scenario branch of the per-asset loop: every branch multiplies the
    one severity argument by that cell's uniform draw (the branches differ
    only in the draw's uniform range). -/
def scenario_impact (scenario : String) (severity d : ℚ) : ℚ :=
  if scenario = "market_crash" then severity * d
  else if scenario = "liquidity_crisis" then severity * d
  else if scenario = "regulatory_shock" then severity * d
  else severity * d

/-- Python for-loop building a dict: for k in ks, d[k] = f k (f also consumes
    random draws). -/
def dictForLoop {κ ν : Type} [DecidableEq κ] (f : κ → List ℚ → ν × List ℚ) :
    List κ → List (κ × ν) → List ℚ → List (κ × ν) × List ℚ
  | [], acc, rng => (acc, rng)
  | k :: ks, acc, rng =>
      let (v, rng1) := f k rng
      dictForLoop f ks (dictInsert acc k v) rng1

/-- The inner loop of perform_stress_test: asset_results over the scenarios
    for one asset; three draws per scenario (impact, recovery, probability). -/
def stressCell (severity : ℚ) (scenario : String) (rng : List ℚ) :
    StressEntry × List ℚ :=
  let (d1, rng1) := takeDraw rng
  let (d2, rng2) := takeDraw rng1
  let (d3, rng3) := takeDraw rng2
  (⟨scenario_impact scenario severity d1, d2, d3⟩, rng3)

/-- The outer loop of perform_stress_test: results[asset_id] = asset_results. -/
def stressResults (severity : ℚ) (scenarios : List String)
    (asset_ids : List String) (rng : List ℚ) :
    List (String × List (String × StressEntry)) × List ℚ :=
  dictForLoop
    (fun _aid rng => dictForLoop (stressCell severity) scenarios [] rng)
    asset_ids [] rng

/-- results[aid][scenario]["potential_loss"] (both keys always present at the
    source's use sites). -/
def lossAt (results : List (String × List (String × StressEntry)))
    (aid scenario : String) : ℚ :=
  (dictGetD (dictGetD results aid []) scenario ⟨0, 0, 0⟩).potential_loss

/-- One scenario row of the portfolio_impact loop: average and worst case
    over the per-asset losses plus a correlation-adjustment draw. -/
def portfolioCell (results : List (String × List (String × StressEntry)))
    (asset_ids : List String) (sc : String) (rng : List ℚ) :
    PortfolioEntry × List ℚ :=
  let losses := asset_ids.map (fun aid => lossAt results aid sc)
  let (d, rng1) := takeDraw rng
  (⟨losses.sum / (losses.length : ℚ), listMax losses, d⟩, rng1)

/-- The portfolio_impact loop. -/
def portfolioImpact (results : List (String × List (String × StressEntry)))
    (asset_ids : List String) (scenarios : List String) (rng : List ℚ) :
    List (String × PortfolioEntry) × List ℚ :=
  dictForLoop (portfolioCell results asset_ids) scenarios [] rng

structure StressData where
  individual_assets : List (String × List (String × StressEntry))
  portfolio_impact : List (String × PortfolioEntry)
  severity : ℚ
  assets_count : ℕ
deriving DecidableEq, Repr

/-- The perform_stress_test endpoint.  When asset_ids is empty and at least
    one scenario is requested, the portfolio loop evaluates max([]), which
    raises ValueError; the surrounding except clause turns that into an HTTP
    500 error, modelled as none. -/
def perform_stress_test (asset_ids stress_scenarios : List String)
    (severity : ℚ) (rng : List ℚ) : Option StressData :=
  if asset_ids = [] ∧ stress_scenarios ≠ [] then none
  else
    let (results, rng1) := stressResults severity stress_scenarios asset_ids rng
    let (portfolio, _) := portfolioImpact results asset_ids stress_scenarios rng1
    some ⟨results, portfolio, severity, asset_ids.length⟩

end Risk

/- ===== Batch endpoints: credit_scoring.py / revenue_prediction.py ===== -/

/-- An HTTP error raised out of an endpoint. -/
structure HttpError where
  status : ℕ
  detail : String
deriving DecidableEq, Repr

/-- One entry of the batch results list: success entries carry the item
    result, failure entries carry the inline error string. -/
structure BatchItem (β : Type) where
  index : ℕ
  result : Except String β
deriving Repr

/-- The summary block of a batch response (the credit endpoint additionally
    reports an average score over the successes, which no claim reads). -/
structure BatchSummary where
  total_requests : ℕ
  successful : ℕ
  failed : ℕ
deriving DecidableEq, Repr

structure BatchResponse (β : Type) where
  results : List (BatchItem β)
  summary : BatchSummary
deriving Repr

/-- The enumerate loop of the batch endpoints: each item is scored inside its
    own try/except, so a failing item becomes an inline error entry and the
    loop continues. -/
def batchItems {α β : Type} (score : α → Except String β) :
    ℕ → List α → List (BatchItem β)
  | _, [] => []
  | i, r :: rest => ⟨i, score r⟩ :: batchItems score (i + 1) rest

/-- The try-block body of a batch endpoint: the size check raising
    HTTPException(400), then the per-item loop and the summary. -/
def batchBody {α β : Type} (limit : ℕ) (score : α → Except String β)
    (requests : List α) : Except HttpError (BatchResponse β) :=
  if requests.length > limit then
    .error ⟨400, "Batch size too large (max " ++ toString limit ++ ")"⟩
  else
    let results := batchItems score 0 requests
    let successful := results.countP (fun it => it.result.isOk)
    .ok ⟨results,
      ⟨requests.length, successful, requests.length - successful⟩⟩

/-- A batch endpoint as a whole: the blanket except Exception clause catches
    any exception raised in the body — including the deliberate
    HTTPException(400) of the size check — and re-raises it as
    HTTPException(500, str(e)). -/
def batchCall {α β : Type} (limit : ℕ) (score : α → Except String β)
    (requests : List α) : Except HttpError (BatchResponse β) :=
  match batchBody limit score requests with
  | .error e => .error ⟨500, e.detail⟩
  | .ok r => .ok r

/-- batch_credit_scoring (limit 100); the endpoint instantiates score with
    credit_model.calculate_credit_score. -/
def batch_credit_scoring {α β : Type} (score : α → Except String β)
    (requests : List α) : Except HttpError (BatchResponse β) :=
  batchCall 100 score requests

/-- batch_predict_revenue (limit 50); the endpoint instantiates score with
    prediction_model.predict_revenue. -/
def batch_predict_revenue {α β : Type} (score : α → Except String β)
    (requests : List α) : Except HttpError (BatchResponse β) :=
  batchCall 50 score requests

/- ===================================================================
   Helper lemmas
   =================================================================== -/

lemma clampQ_mem (lo hi x : ℚ) (h : lo ≤ hi) :
    lo ≤ max lo (min hi x) ∧ max lo (min hi x) ≤ hi :=
  ⟨le_max_left lo _, max_le h (min_le_left hi x)⟩

lemma clampZ_mem (lo hi x : ℤ) (h : lo ≤ hi) :
    lo ≤ max lo (min hi x) ∧ max lo (min hi x) ≤ hi :=
  ⟨le_max_left lo _, max_le h (min_le_left hi x)⟩

/-- The threshold-table lookup written out as a decision chain. -/
lemma credit_grade_eq (s : ℤ) : Credit.determine_credit_grade s =
    (if 800 ≤ s then .AAA else if 750 ≤ s then .AA else if 700 ≤ s then .A
    else if 650 ≤ s then .BBB else if 600 ≤ s then .BB else if 550 ≤ s then .B
    else if 500 ≤ s then .CCC else if 450 ≤ s then .CC else if 400 ≤ s then .C
    else if 0 ≤ s then .D else .D) := rfl

/-- The risk-level lookup written out as a decision chain. -/
lemma risk_level_eq (q : ℚ) : Risk.determine_risk_level q =
    (if q ≤ 20 then .very_low else if q ≤ 40 then .low
    else if q ≤ 60 then .medium else if q ≤ 80 then .high
    else if q ≤ 95 then .very_high else if q ≤ 100 then .extreme
    else .extreme) := rfl

lemma firstAtLeast_rank_le {α : Type} (rank : α → ℕ) (fallback : α) (B : ℕ)
    (hfB : rank fallback ≤ B) :
    ∀ l : List (α × ℤ), (∀ p ∈ l, rank p.1 ≤ B) →
      ∀ s, rank (Credit.firstAtLeast fallback l s) ≤ B := by
  intro l
  induction l with
  | nil => intro _ s; simpa [Credit.firstAtLeast] using hfB
  | cons hd tl ih =>
    intro hB s
    obtain ⟨g, th⟩ := hd
    simp only [Credit.firstAtLeast]
    by_cases h : s ≥ th
    · rw [if_pos h]; exact hB (g, th) (by simp)
    · rw [if_neg h]; exact ih (fun p hp => hB p (by simp [hp])) s

/-- Monotonicity of a first-match threshold lookup whose labels appear in
    decreasing rank order and dominate the fallback. -/
lemma firstAtLeast_rank_mono {α : Type} (rank : α → ℕ) (fallback : α) :
    ∀ l : List (α × ℤ), List.Pairwise (fun a b => rank b.1 ≤ rank a.1) l →
      (∀ p ∈ l, rank fallback ≤ rank p.1) →
      ∀ s t : ℤ, s ≤ t →
        rank (Credit.firstAtLeast fallback l s) ≤
          rank (Credit.firstAtLeast fallback l t) := by
  intro l
  induction l with
  | nil => intro _ _ s t _; exact le_refl _
  | cons hd tl ih =>
    intro hp hfb s t hst
    obtain ⟨g, th⟩ := hd
    obtain ⟨hhead, htail⟩ := List.pairwise_cons.mp hp
    simp only [Credit.firstAtLeast]
    by_cases h1 : s ≥ th
    · rw [if_pos h1, if_pos (le_trans h1 hst)]
    · rw [if_neg h1]
      by_cases h2 : t ≥ th
      · rw [if_pos h2]
        exact firstAtLeast_rank_le rank fallback (rank g)
          (hfb (g, th) (by simp)) tl (fun p hp2 => hhead p hp2) s
      · rw [if_neg h2]
        exact ih htail (fun p hp2 => hfb p (by simp [hp2])) s t hst

lemma firstAtMost_rank_ge (fallback : Risk.RiskLevel) (B : ℕ)
    (hfB : B ≤ Risk.riskRank fallback) :
    ∀ l : List (Risk.RiskLevel × ℚ), (∀ p ∈ l, B ≤ Risk.riskRank p.1) →
      ∀ q, B ≤ Risk.riskRank (Risk.firstAtMost fallback l q) := by
  intro l
  induction l with
  | nil => intro _ q; simpa [Risk.firstAtMost] using hfB
  | cons hd tl ih =>
    intro hB q
    obtain ⟨g, th⟩ := hd
    simp only [Risk.firstAtMost]
    by_cases h : q ≤ th
    · rw [if_pos h]; exact hB (g, th) (by simp)
    · rw [if_neg h]; exact ih (fun p hp => hB p (by simp [hp])) q

/-- Monotonicity of a first-match at-most lookup whose labels appear in
    increasing rank order, all below the fallback. -/
lemma firstAtMost_rank_mono (fallback : Risk.RiskLevel) :
    ∀ l : List (Risk.RiskLevel × ℚ),
      List.Pairwise (fun a b => Risk.riskRank a.1 ≤ Risk.riskRank b.1) l →
      (∀ p ∈ l, Risk.riskRank p.1 ≤ Risk.riskRank fallback) →
      ∀ p q : ℚ, p ≤ q →
        Risk.riskRank (Risk.firstAtMost fallback l p) ≤
          Risk.riskRank (Risk.firstAtMost fallback l q) := by
  intro l
  induction l with
  | nil => intro _ _ p q _; exact le_refl _
  | cons hd tl ih =>
    intro hpw hfb p q hpq
    obtain ⟨g, th⟩ := hd
    obtain ⟨hhead, htail⟩ := List.pairwise_cons.mp hpw
    simp only [Risk.firstAtMost]
    by_cases h1 : q ≤ th
    · rw [if_pos h1, if_pos (le_trans hpq h1)]
    · rw [if_neg h1]
      by_cases h2 : p ≤ th
      · rw [if_pos h2]
        exact firstAtMost_rank_ge fallback (Risk.riskRank g)
          (hfb (g, th) (by simp)) tl (fun p2 hp2 => hhead p2 hp2) q
      · rw [if_neg h2]
        exact ih htail (fun p2 hp2 => hfb p2 (by simp [hp2])) p q hpq

lemma ite_signal_nonneg (b : Bool) (k : ℚ) (hk : 0 ≤ k) :
    0 ≤ (if b then k else 0) := by
  cases b <;> simp [hk]

lemma ite_signal_mono {b c : Bool} (h : b = true → c = true) {k : ℚ}
    (hk : 0 ≤ k) : (if b then k else 0) ≤ (if c then k else 0) := by
  cases b <;> cases c <;> simp_all

/-- _calculate_confidence (credit) factors through its sufficiency booleans. -/
lemma credit_confidence_factor (r : Credit.CreditScoreRequest) :
    Credit.calculate_confidence r =
      Credit.confidence_from_signals (Credit.confidence_signals r) := by
  rcases r with ⟨uid, ut, fh, am, im, bm, sm⟩
  cases ut <;> cases am <;>
    simp only [Credit.calculate_confidence, Credit.confidence_signals,
      Credit.confidence_from_signals, decide_eq_true_eq, Bool.false_eq_true,
      if_false, if_true] <;>
    split_ifs <;> norm_num

/-- _calculate_confidence (risk) factors through its sufficiency booleans. -/
lemma risk_confidence_factor (r : Risk.RiskAssessmentRequest) :
    Risk.calculate_confidence r =
      Risk.confidence_from_signals (Risk.confidence_signals r) := by
  rcases r with ⟨aid, ai, md, th, rt, ats⟩
  cases ai <;>
    simp only [Risk.calculate_confidence, Risk.confidence_signals,
      Risk.confidence_from_signals, decide_eq_true_eq, Bool.false_eq_true,
      if_false, if_true] <;>
    split_ifs <;> norm_num

lemma credit_confidence_from_signals_range (b : Bool × Bool × Bool × Bool) :
    1/2 ≤ Credit.confidence_from_signals b ∧
      Credit.confidence_from_signals b ≤ 1 := by
  obtain ⟨b1, b2, b3, b4⟩ := b
  cases b1 <;> cases b2 <;> cases b3 <;> cases b4 <;>
    norm_num [Credit.confidence_from_signals, min_def]

lemma risk_confidence_from_signals_range (b : Bool × Bool × Bool × Bool) :
    1/2 ≤ Risk.confidence_from_signals b ∧
      Risk.confidence_from_signals b ≤ 1 := by
  obtain ⟨b1, b2, b3, b4⟩ := b
  cases b1 <;> cases b2 <;> cases b3 <;> cases b4 <;>
    norm_num [Risk.confidence_from_signals, min_def]

lemma credit_confidence_from_signals_mono {b c : Bool × Bool × Bool × Bool}
    (h1 : b.1 = true → c.1 = true) (h2 : b.2.1 = true → c.2.1 = true)
    (h3 : b.2.2.1 = true → c.2.2.1 = true)
    (h4 : b.2.2.2 = true → c.2.2.2 = true) :
    Credit.confidence_from_signals b ≤ Credit.confidence_from_signals c := by
  obtain ⟨b1, b2, b3, b4⟩ := b
  obtain ⟨c1, c2, c3, c4⟩ := c
  simp only [Credit.confidence_from_signals]
  refine min_le_min le_rfl ?_
  have k1 := ite_signal_mono h1 (show (0:ℚ) ≤ 2/10 by norm_num)
  have k2 := ite_signal_mono h2 (show (0:ℚ) ≤ 15/100 by norm_num)
  have k3 := ite_signal_mono h3 (show (0:ℚ) ≤ 1/10 by norm_num)
  have k4 := ite_signal_mono h4 (show (0:ℚ) ≤ 5/100 by norm_num)
  linarith

lemma risk_confidence_from_signals_mono {b c : Bool × Bool × Bool × Bool}
    (h1 : b.1 = true → c.1 = true) (h2 : b.2.1 = true → c.2.1 = true)
    (h3 : b.2.2.1 = true → c.2.2.1 = true)
    (h4 : b.2.2.2 = true → c.2.2.2 = true) :
    Risk.confidence_from_signals b ≤ Risk.confidence_from_signals c := by
  obtain ⟨b1, b2, b3, b4⟩ := b
  obtain ⟨c1, c2, c3, c4⟩ := c
  simp only [Risk.confidence_from_signals]
  refine min_le_min le_rfl ?_
  have k1 := ite_signal_mono h1 (show (0:ℚ) ≤ 2/10 by norm_num)
  have k2 := ite_signal_mono h2 (show (0:ℚ) ≤ 1/10 by norm_num)
  have k3 := ite_signal_mono h3 (show (0:ℚ) ≤ 1/10 by norm_num)
  have k4 := ite_signal_mono h4 (show (0:ℚ) ≤ 1/10 by norm_num)
  linarith

lemma sum_map_div {α : Type} (l : List α) (f : α → ℚ) (c : ℚ) :
    (l.map (fun x => f x / c)).sum = (l.map f).sum / c := by
  induction l with
  | nil => simp
  | cons hd tl ih => simp [ih, add_div]

lemma overall_fold_general (l : List (Risk.RiskType × ℚ)) :
    ∀ a b : ℚ,
      l.foldl (fun (p : ℚ × ℚ) (e : Risk.RiskType × ℚ) =>
        let weight := MMF.dictGetD Risk.risk_weights e.1 (1/10)
        (p.1 + e.2 * weight, p.2 + weight)) (a, b) =
      (a + (l.map (fun e => e.2 * MMF.dictGetD Risk.risk_weights e.1 (1/10))).sum,
       b + (l.map (fun e => MMF.dictGetD Risk.risk_weights e.1 (1/10))).sum) := by
  induction l with
  | nil => intro a b; simp
  | cons hd tl ih =>
    intro a b
    simp only [List.foldl_cons, List.map_cons, List.sum_cons, ih]
    simp only [Prod.mk.injEq]
    constructor <;> ring

/-- The _calculate_overall_risk accumulation loop computes the two sums. -/
lemma overall_fold (l : List (Risk.RiskType × ℚ)) :
    l.foldl (fun (p : ℚ × ℚ) (e : Risk.RiskType × ℚ) =>
      let weight := MMF.dictGetD Risk.risk_weights e.1 (1/10)
      (p.1 + e.2 * weight, p.2 + weight)) (0, 0) =
    ((l.map (fun e => e.2 * MMF.dictGetD Risk.risk_weights e.1 (1/10))).sum,
     (l.map (fun e => MMF.dictGetD Risk.risk_weights e.1 (1/10))).sum) := by
  rw [overall_fold_general l 0 0]; norm_num

lemma risk_weight_pos (rt : Risk.RiskType) :
    0 < MMF.dictGetD Risk.risk_weights rt (1/10) := by
  cases rt <;> norm_num +decide [Risk.risk_weights, MMF.dictGetD]

lemma weights_sum_pos (l : List (Risk.RiskType × ℚ)) (hne : l ≠ []) :
    0 < (l.map (fun e => MMF.dictGetD Risk.risk_weights e.1 (1/10))).sum := by
  cases l with
  | nil => exact absurd rfl hne
  | cons hd tl =>
    simp only [List.map_cons, List.sum_cons]
    have h1 := risk_weight_pos hd.1
    have h2 : 0 ≤ (tl.map (fun e => MMF.dictGetD Risk.risk_weights e.1 (1/10))).sum := by
      apply List.sum_nonneg
      intro x hx
      obtain ⟨e, _, rfl⟩ := List.mem_map.mp hx
      exact (risk_weight_pos e.1).le
    linarith

lemma batchItems_length {α β : Type} (score : α → Except String β) :
    ∀ (n : ℕ) (l : List α), (MMF.batchItems score n l).length = l.length := by
  intro n l
  induction l generalizing n with
  | nil => simp [MMF.batchItems]
  | cons hd tl ih => simp [MMF.batchItems, ih]

lemma batchItems_get {α β : Type} (score : α → Except String β) :
    ∀ (l : List α) (n i : ℕ),
      (MMF.batchItems score n l).get? i =
        (l.get? i).map (fun r => ⟨n + i, score r⟩) := by
  intro l
  induction l with
  | nil => intro n i; simp [MMF.batchItems]
  | cons hd tl ih =>
    intro n i
    cases i with
    | zero => simp [MMF.batchItems]
    | succ j =>
      simp only [MMF.batchItems, List.get?_cons_succ]
      rw [ih (n + 1) j]
      have hnj : n + 1 + j = n + (j + 1) := by omega
      rw [hnj]

lemma countP_split {γ : Type} (p : γ → Bool) (l : List γ) :
    l.countP p + l.countP (fun x => !(p x)) = l.length := by
  induction l with
  | nil => simp
  | cons hd tl ih =>
    by_cases h : p hd <;> simp [List.countP_cons, h] <;> omega

/-- Reference form of a draw-threading dict-building loop: pairs in key
    order, no overwrites. -/
def mapThread {κ ν : Type} (f : κ → List ℚ → ν × List ℚ) :
    List κ → List ℚ → List (κ × ν) × List ℚ
  | [], rng => ([], rng)
  | k :: ks, rng =>
    let (v, rng1) := f k rng
    let (rest, rng2) := mapThread f ks rng1
    ((k, v) :: rest, rng2)

lemma dictInsert_append {κ ν : Type} [DecidableEq κ] :
    ∀ (l : List (κ × ν)) (k : κ) (v : ν), k ∉ l.map Prod.fst →
      MMF.dictInsert l k v = l ++ [(k, v)] := by
  intro l
  induction l with
  | nil => intro k v _; rfl
  | cons hd tl ih =>
    intro k v hk
    obtain ⟨k1, v1⟩ := hd
    simp only [List.map_cons, List.mem_cons, not_or] at hk
    simp only [MMF.dictInsert]
    rw [if_neg (fun he => hk.1 he.symm), ih k v hk.2]
    rfl

/-- With distinct keys none of which is already in the accumulator, the
    Python dict-building loop is the plain in-order map. -/
lemma dictForLoop_eq_mapThread {κ ν : Type} [DecidableEq κ]
    (f : κ → List ℚ → ν × List ℚ) :
    ∀ (ks : List κ) (acc : List (κ × ν)) (rng : List ℚ),
      ks.Nodup → (∀ k ∈ ks, k ∉ acc.map Prod.fst) →
      Risk.dictForLoop f ks acc rng =
        (acc ++ (mapThread f ks rng).1, (mapThread f ks rng).2) := by
  intro ks
  induction ks with
  | nil => intro acc rng _ _; simp [Risk.dictForLoop, mapThread]
  | cons k ks ih =>
    intro acc rng hnd hdisj
    obtain ⟨hk, hnd2⟩ := List.nodup_cons.mp hnd
    rcases hfk : f k rng with ⟨v, rng1⟩
    rcases hmt : mapThread f ks rng1 with ⟨rest, rng2⟩
    have hins : MMF.dictInsert acc k v = acc ++ [(k, v)] :=
      dictInsert_append acc k v (hdisj k (by simp))
    have hdisj2 : ∀ k2 ∈ ks, k2 ∉ (acc ++ [(k, v)]).map Prod.fst := by
      intro k2 hk2
      simp only [List.map_append, List.mem_append, List.map_cons,
        List.map_nil, List.mem_singleton, not_or]
      exact ⟨hdisj k2 (by simp [hk2]),
        fun he => hk (he ▸ hk2)⟩
    simp only [Risk.dictForLoop, hfk, hins, mapThread, hmt]
    rw [ih (acc ++ [(k, v)]) rng1 hnd2 hdisj2, hmt]
    simp

lemma mapThread_fst {κ ν : Type} (f : κ → List ℚ → ν × List ℚ) :
    ∀ (ks : List κ) (rng : List ℚ),
      ((mapThread f ks rng).1).map Prod.fst = ks := by
  intro ks
  induction ks with
  | nil => intro rng; simp [mapThread]
  | cons k ks ih =>
    intro rng
    rcases hfk : f k rng with ⟨v, rng1⟩
    rcases hmt : mapThread f ks rng1 with ⟨rest, rng2⟩
    simp only [mapThread, hfk, hmt, List.map_cons]
    have := ih rng1
    rw [hmt] at this
    simp [this]

lemma mapThread_mem {κ ν : Type} (f : κ → List ℚ → ν × List ℚ) :
    ∀ (ks : List κ) (rng : List ℚ) (p : κ × ν),
      p ∈ (mapThread f ks rng).1 → ∃ rng0, p.2 = (f p.1 rng0).1 := by
  intro ks
  induction ks with
  | nil => intro rng p hp; simp [mapThread] at hp
  | cons k ks ih =>
    intro rng p hp
    rcases hfk : f k rng with ⟨v, rng1⟩
    rcases hmt : mapThread f ks rng1 with ⟨rest, rng2⟩
    simp only [mapThread, hfk, hmt, List.mem_cons] at hp
    rcases hp with hp | hp
    · subst hp; exact ⟨rng, by rw [hfk]⟩
    · have := ih rng1 p (by rw [hmt]; exact hp)
      exact this

lemma map_keys_lookup {ν : Type} (F : ν → ℚ) (dflt : ν) :
    ∀ l : List (String × ν), (l.map Prod.fst).Nodup →
      (l.map Prod.fst).map (fun k => F (MMF.dictGetD l k dflt)) =
        l.map (fun p => F p.2) := by
  intro l
  induction l with
  | nil => intro _; simp
  | cons hd tl ih =>
    intro hnd
    obtain ⟨k1, v1⟩ := hd
    simp only [List.map_cons, List.nodup_cons] at hnd ⊢
    have hcong : ∀ k ∈ tl.map Prod.fst,
        F (MMF.dictGetD ((k1, v1) :: tl) k dflt) =
          F (MMF.dictGetD tl k dflt) := by
      intro k hk
      have hne : k1 ≠ k := fun he => hnd.1 (he ▸ hk)
      simp [MMF.dictGetD, if_neg hne]
    rw [show MMF.dictGetD ((k1, v1) :: tl) k1 dflt = v1 from by
        simp [MMF.dictGetD],
      List.map_congr_left hcong, ih hnd.2]

lemma stressCell_loss (sev : ℚ) (sc : String) (rng : List ℚ) :
    ∃ d, ((Risk.stressCell sev sc rng).1).potential_loss =
      Risk.scenario_impact sc sev d := by
  cases rng with
  | nil => exact ⟨0, rfl⟩
  | cons d rest => exact ⟨d, rfl⟩

lemma portfolioCell_eval (results : List (String × List (String × Risk.StressEntry)))
    (asset_ids : List String) (sc : String) (rng : List ℚ) :
    (Risk.portfolioCell results asset_ids sc rng).1 =
      ⟨(asset_ids.map (fun aid => Risk.lossAt results aid sc)).sum /
        ((asset_ids.map (fun aid => Risk.lossAt results aid sc)).length : ℚ),
       MMF.listMax (asset_ids.map (fun aid => Risk.lossAt results aid sc)),
       (Risk.takeDraw rng).1⟩ := by
  cases rng <;> rfl

/- ===================================================================
   Theorems
   =================================================================== -/

/-- C8, amended theorem: for every stress test over at least one asset
    identifier, with distinct identifiers and distinct scenario names (they
    are dict keys), the output has exactly N individual entries of exactly M
    per-scenario results each, exactly M portfolio entries, the single
    severity parameter of the call multiplies every cell's draw
    (potential_loss = scenario_impact scenario severity draw), and each
    scenario's worst_case_loss is the maximum of that scenario's individual
    per-asset potential losses.  For N = 0 with M ≥ 1 the endpoint fails
    instead (see the counterexample). -/
theorem c8_stress_test_shape :
    ∀ (asset_ids scenarios : List String) (severity : ℚ) (rng : List ℚ),
      asset_ids ≠ [] → asset_ids.Nodup → scenarios.Nodup →
      ∃ d : Risk.StressData,
        Risk.perform_stress_test asset_ids scenarios severity rng = some d ∧
        d.individual_assets.map Prod.fst = asset_ids ∧
        d.individual_assets.length = asset_ids.length ∧
        (∀ p ∈ d.individual_assets,
          p.2.map Prod.fst = scenarios ∧ p.2.length = scenarios.length) ∧
        d.portfolio_impact.map Prod.fst = scenarios ∧
        d.portfolio_impact.length = scenarios.length ∧
        d.severity = severity ∧
        d.assets_count = asset_ids.length ∧
        (∀ q ∈ d.portfolio_impact,
          q.2.worst_case_loss =
            MMF.listMax (d.individual_assets.map
              (fun p => (MMF.dictGetD p.2 q.1 ⟨0, 0, 0⟩).potential_loss))) ∧
        (∀ p ∈ d.individual_assets, ∀ c ∈ p.2,
          ∃ dr, c.2.potential_loss = Risk.scenario_impact c.1 severity dr) := by
  intro asset_ids scenarios severity rng hne hnda hnds
  have hcond : ¬(asset_ids = [] ∧ scenarios ≠ []) := fun h => hne h.1
  rcases hres : Risk.stressResults severity scenarios asset_ids rng with
    ⟨results, rng1⟩
  rcases hpf : Risk.portfolioImpact results asset_ids scenarios rng1 with
    ⟨portfolio, rng2⟩
  have hres2 : results =
      (mapThread (fun _aid rng =>
        Risk.dictForLoop (Risk.stressCell severity) scenarios [] rng)
        asset_ids rng).1 := by
    have heq := dictForLoop_eq_mapThread
      (fun _aid rng =>
        Risk.dictForLoop (Risk.stressCell severity) scenarios [] rng)
      asset_ids [] rng hnda (by simp)
    unfold Risk.stressResults at hres
    rw [heq] at hres
    have h2 := congrArg Prod.fst hres
    simpa using h2.symm
  have hpf2 : portfolio =
      (mapThread (Risk.portfolioCell results asset_ids) scenarios rng1).1 := by
    have heq := dictForLoop_eq_mapThread
      (Risk.portfolioCell results asset_ids) scenarios [] rng1 hnds (by simp)
    unfold Risk.portfolioImpact at hpf
    rw [heq] at hpf
    have h2 := congrArg Prod.fst hpf
    simpa using h2.symm
  have hkeys : results.map Prod.fst = asset_ids := by
    rw [hres2]; exact mapThread_fst _ asset_ids rng
  have hentries : ∀ p ∈ results, p.2.map Prod.fst = scenarios := by
    intro p hp
    rw [hres2] at hp
    obtain ⟨rng0, hp2⟩ := mapThread_mem _ asset_ids rng p hp
    rw [hp2,
      dictForLoop_eq_mapThread (Risk.stressCell severity) scenarios [] rng0
        hnds (by simp)]
    simpa using mapThread_fst (Risk.stressCell severity) scenarios rng0
  have hpkeys : portfolio.map Prod.fst = scenarios := by
    rw [hpf2]; exact mapThread_fst _ scenarios rng1
  refine ⟨⟨results, portfolio, severity, asset_ids.length⟩, ?_, ?_, ?_, ?_,
    ?_, ?_, rfl, rfl, ?_, ?_⟩
  · simp only [Risk.perform_stress_test, if_neg hcond, hres, hpf]
  · exact hkeys
  · rw [← hkeys, List.length_map]
  · intro p hp
    refine ⟨hentries p hp, ?_⟩
    rw [← hentries p hp, List.length_map]
  · exact hpkeys
  · rw [← hpkeys, List.length_map]
  · intro q hq
    rw [hpf2] at hq
    obtain ⟨rng0, hq2⟩ := mapThread_mem _ scenarios rng1 q hq
    rw [hq2, portfolioCell_eval results asset_ids q.1 rng0]
    dsimp only
    have hmap : asset_ids.map (fun aid => Risk.lossAt results aid q.1) =
        results.map
          (fun p => (MMF.dictGetD p.2 q.1 ⟨0, 0, 0⟩).potential_loss) := by
      conv_lhs => rw [← hkeys]
      simp only [Risk.lossAt]
      exact map_keys_lookup
        (fun v => (MMF.dictGetD v q.1 ⟨0, 0, 0⟩).potential_loss) []
        results (by rw [hkeys]; exact hnda)
    rw [hmap]
  · intro p hp c hc
    rw [hres2] at hp
    obtain ⟨rng0, hp2⟩ := mapThread_mem _ asset_ids rng p hp
    rw [hp2,
      dictForLoop_eq_mapThread (Risk.stressCell severity) scenarios [] rng0
        hnds (by simp)] at hc
    simp only [List.nil_append] at hc
    obtain ⟨rng00, hc2⟩ := mapThread_mem _ scenarios rng0 c hc
    rw [hc2]
    exact stressCell_loss severity c.1 rng00

/-- Witness for C8 at a concrete two-asset one-scenario call. -/
theorem c8_witness :
    ((["a", "b"] : List String) ≠ [] ∧ (["a", "b"] : List String).Nodup ∧
      (["market_crash"] : List String).Nodup) ∧
    (∃ d : Risk.StressData,
      Risk.perform_stress_test ["a", "b"] ["market_crash"] (1/2)
        [1, 2, 3, 4, 5, 6] = some d ∧
      d.individual_assets.map Prod.fst = ["a", "b"] ∧
      d.individual_assets.length = (["a", "b"] : List String).length ∧
      (∀ p ∈ d.individual_assets,
        p.2.map Prod.fst = ["market_crash"] ∧
        p.2.length = (["market_crash"] : List String).length) ∧
      d.portfolio_impact.map Prod.fst = ["market_crash"] ∧
      d.portfolio_impact.length = (["market_crash"] : List String).length ∧
      d.severity = 1/2 ∧
      d.assets_count = (["a", "b"] : List String).length ∧
      (∀ q ∈ d.portfolio_impact,
        q.2.worst_case_loss =
          MMF.listMax (d.individual_assets.map
            (fun p => (MMF.dictGetD p.2 q.1 ⟨0, 0, 0⟩).potential_loss))) ∧
      (∀ p ∈ d.individual_assets, ∀ c ∈ p.2,
        ∃ dr, c.2.potential_loss = Risk.scenario_impact c.1 (1/2) dr)) :=
  ⟨⟨by simp, by simp, by simp⟩,
   c8_stress_test_shape ["a", "b"] ["market_crash"] (1/2) [1, 2, 3, 4, 5, 6]
     (by simp) (by simp) (by simp)⟩

/-- C9: for the all-zero financial-history bundle (total_revenue = 0,
    total_transactions = 0, defaults = 0, late_payments = 0,
    average_transaction_size = 0), _calculate_financial_score returns exactly
    500, the domain base value. -/
theorem c9_financial_base_score :
    Credit.calculate_financial_score Credit.fhZero = 500 := by
  norm_num [Credit.calculate_financial_score, Credit.fhZero]

/-- C1, counterexample: the credit aggregate does not renormalize.  For the
    all-zero artist request every present sub-score is 500 and the artist
    profile's additional_factors category (weight 0.05) has no sub-score, so
    the claimed renormalized aggregate is 500; the code returns 475 because
    the 0.05 weight is dropped from the numerator but no denominator
    renormalizes the remaining 0.95. -/
theorem c1_counterexample :
    (Credit.calculate_credit_score Credit.lgZero Credit.reqZeroArtist).credit_score = 475 ∧
    Credit.claimRenormCreditScore Credit.lgZero Credit.reqZeroArtist = 500 ∧
    (475 : ℤ) ≠ 500 := by
  refine ⟨?_, ?_, by norm_num⟩ <;>
  norm_num +decide [Credit.calculate_credit_score, Credit.claimRenormCreditScore,
    Credit.calculate_financial_score, Credit.calculate_artist_score,
    Credit.calculate_blockchain_score, Credit.calculate_social_score,
    Credit.artist_weights, Credit.investor_weights, Credit.reqZeroArtist,
    Credit.fhZero, Credit.amZero, Credit.bmZero, Credit.smZero, Credit.lgZero,
    MMF.dictGetD, MMF.pyInt]

/-- C1, amended theorem (risk half): _calculate_overall_risk renormalizes
    over the present categories — for every nonempty risk_scores dict it
    equals the clamp of (sum of score x weight over present categories
    divided by the sum of the present weights) times the horizon decay, and
    the effective weights (weight over total present weight) sum to exactly 1
    (so certainly within 1e-6).  The credit aggregate, by contrast, does not
    renormalize: see the counterexample. -/
theorem c1_weighted_renormalization :
    ∀ (scores : List (Risk.RiskType × ℚ)) (h : Risk.TimeHorizon),
      scores ≠ [] →
      Risk.calculate_overall_risk scores h =
        max 0 (min 100
          (((scores.map (fun e => e.2 * MMF.dictGetD Risk.risk_weights e.1 (1/10))).sum /
            (scores.map (fun e => MMF.dictGetD Risk.risk_weights e.1 (1/10))).sum) *
            Risk.time_decay h)) ∧
      (scores.map (fun e => MMF.dictGetD Risk.risk_weights e.1 (1/10) /
          (scores.map (fun e2 => MMF.dictGetD Risk.risk_weights e2.1 (1/10))).sum)).sum = 1 := by
  intro scores h hne
  have hpos := weights_sum_pos scores hne
  constructor
  · simp only [Risk.calculate_overall_risk, overall_fold]
    rw [if_pos hpos]
  · rw [sum_map_div scores
      (fun e => MMF.dictGetD Risk.risk_weights e.1 (1/10))
      ((scores.map (fun e2 => MMF.dictGetD Risk.risk_weights e2.1 (1/10))).sum)]
    exact div_self (ne_of_gt hpos)

/-- Witness for C1 at a concrete one-category score dict. -/
theorem c1_witness :
    ([((Risk.RiskType.market : Risk.RiskType), (60 : ℚ))] ≠ []) ∧
    (Risk.calculate_overall_risk [(Risk.RiskType.market, 60)] .short_term =
      max 0 (min 100
        ((([((Risk.RiskType.market : Risk.RiskType), (60 : ℚ))].map
            (fun e => e.2 * MMF.dictGetD Risk.risk_weights e.1 (1/10))).sum /
          ([((Risk.RiskType.market : Risk.RiskType), (60 : ℚ))].map
            (fun e => MMF.dictGetD Risk.risk_weights e.1 (1/10))).sum) *
          Risk.time_decay .short_term)) ∧
      ([((Risk.RiskType.market : Risk.RiskType), (60 : ℚ))].map
        (fun e => MMF.dictGetD Risk.risk_weights e.1 (1/10) /
          ([((Risk.RiskType.market : Risk.RiskType), (60 : ℚ))].map
            (fun e2 => MMF.dictGetD Risk.risk_weights e2.1 (1/10))).sum)).sum = 1) :=
  ⟨by simp, c1_weighted_renormalization [(.market, 60)] .short_term (by simp)⟩

/-- C10, counterexample: for an artist request whose artist_metrics field is
    absent, the engine keeps the artist weight profile (so the specific
    category enters with weight 0.25, not the investor_metrics 0.30): the
    all-zero artist request without artist_metrics scores 475, while the same
    request under the investor profile — what the claim predicts — scores
    500. -/
theorem c10_counterexample :
    (Credit.calculate_credit_score Credit.lgZero Credit.reqArtistNone).credit_score = 475 ∧
    (Credit.calculate_credit_score Credit.lgZero
      { Credit.reqArtistNone with user_type := .investor }).credit_score = 500 ∧
    (475 : ℤ) ≠ 500 := by
  refine ⟨?_, ?_, by norm_num⟩ <;>
  norm_num +decide [Credit.calculate_credit_score, Credit.calculate_financial_score,
    Credit.calculate_blockchain_score, Credit.calculate_social_score,
    Credit.artist_weights, Credit.investor_weights, Credit.reqArtistNone,
    Credit.fhZero, Credit.bmZero, Credit.smZero, Credit.lgZero,
    MMF.dictGetD, MMF.pyInt]

/-- C10, amended theorem: the engine never fails on unlisted user types or a
    missing type-specific bundle, substituting the neutral sub-score 500.
    For label and producer it behaves exactly as an investor request without
    investor metrics (the investor profile, specific weight 0.30); for an
    investor without investor_metrics the specific score 500 enters with the
    investor weight 0.30; but an artist without artist_metrics keeps the
    artist profile, so 500 enters with the artist_metrics weight 0.25 (not
    0.30 as the claim said).  In every fallback case the breakdown's
    specific_metrics entry is 500. -/
theorem c10_fallback_unlisted_user_types :
    ∀ (lg : ℚ → ℚ) (r : Credit.CreditScoreRequest),
      ((r.user_type = .label ∨ r.user_type = .producer) →
        Credit.calculate_credit_score lg r =
          Credit.calculate_credit_score lg
            { r with user_type := .investor, investor_metrics := none } ∧
        MMF.dictGetD (Credit.calculate_credit_score lg r).score_breakdown
          "specific_metrics" 0 = 500) ∧
      (r.user_type = .investor → r.investor_metrics = none →
        MMF.dictGetD (Credit.calculate_credit_score lg r).score_breakdown
          "specific_metrics" 0 = 500 ∧
        (Credit.calculate_credit_score lg r).credit_score =
          max 300 (min 850 (MMF.pyInt
            (Credit.calculate_financial_score r.financial_history * (40/100) +
             500 * (30/100) +
             Credit.calculate_blockchain_score lg r.blockchain_metrics * (20/100) +
             Credit.calculate_social_score lg r.social_metrics * (10/100))))) ∧
      (r.user_type = .artist → r.artist_metrics = none →
        MMF.dictGetD (Credit.calculate_credit_score lg r).score_breakdown
          "specific_metrics" 0 = 500 ∧
        (Credit.calculate_credit_score lg r).credit_score =
          max 300 (min 850 (MMF.pyInt
            (Credit.calculate_financial_score r.financial_history * (35/100) +
             500 * (25/100) +
             Credit.calculate_blockchain_score lg r.blockchain_metrics * (20/100) +
             Credit.calculate_social_score lg r.social_metrics * (15/100))))) := by
  intro lg r
  rcases r with ⟨uid, ut, fh, am, im, bm, sm⟩
  refine ⟨?_, ?_, ?_⟩
  · rintro (h | h) <;> subst h <;>
      constructor <;>
      norm_num +decide [Credit.calculate_credit_score,
        Credit.calculate_confidence, Credit.artist_weights,
        Credit.investor_weights, MMF.dictGetD]
  · rintro h h2
    subst h; subst h2
    constructor <;>
      norm_num +decide [Credit.calculate_credit_score,
        Credit.investor_weights, MMF.dictGetD]
  · rintro h h2
    subst h; subst h2
    constructor <;>
      norm_num +decide [Credit.calculate_credit_score,
        Credit.artist_weights, Credit.investor_weights, MMF.dictGetD]

/-- Witness for C10 at the concrete label request. -/
theorem c10_witness :
    (Credit.reqLabel.user_type = .label ∨ Credit.reqLabel.user_type = .producer) ∧
    (Credit.calculate_credit_score Credit.lgZero Credit.reqLabel =
      Credit.calculate_credit_score Credit.lgZero
        { Credit.reqLabel with user_type := .investor, investor_metrics := none } ∧
     MMF.dictGetD
       (Credit.calculate_credit_score Credit.lgZero Credit.reqLabel).score_breakdown
       "specific_metrics" 0 = 500) :=
  ⟨Or.inl rfl,
   (c10_fallback_unlisted_user_types Credit.lgZero Credit.reqLabel).1 (Or.inl rfl)⟩

/-- C2: _assess_operational_risk is not a pure function of the request — it
    adds three np.random.uniform draws, so the same request yields different
    sub-scores on two invocations whose draws differ (draws shown are inside
    the source's uniform ranges (10,30), (5,20), (5,15)). -/
theorem c2_operational_risk_not_deterministic :
    Risk.assess_operational_risk Risk.reqRiskOp 11 6 6 ≠
    Risk.assess_operational_risk Risk.reqRiskOp 20 10 7 := by
  norm_num [Risk.assess_operational_risk]

/-- C6: the batch size check does reject the whole batch before any item is
    processed, but its HTTPException(400) is swallowed by the blanket except
    clause and re-raised as status 500, so the client sees an internal error,
    not a validation error: shown at 101 credit requests and 51 revenue
    requests (score function arbitrary). -/
theorem c6_batch_limit_rejected_as_500 :
    MMF.batch_credit_scoring (fun n : ℕ => Except.ok n) (List.replicate 101 0) =
      Except.error ⟨500, "Batch size too large (max 100)"⟩ ∧
    MMF.batch_predict_revenue (fun n : ℕ => Except.ok n) (List.replicate 51 0) =
      Except.error ⟨500, "Batch size too large (max 50)"⟩ := by
  constructor <;> rfl

/-- C3: for every request — whatever np.log10 returns and whatever values the
    random draws take — the returned credit_score is an integer (its type) in
    [300, 850] and the returned overall_risk_score is in [0, 100]: both
    aggregates clamp to the domain range before classification regardless of
    the unclamped weighted sum. -/
theorem c3_output_range :
    (∀ (lg : ℚ → ℚ) (r : Credit.CreditScoreRequest),
      300 ≤ (Credit.calculate_credit_score lg r).credit_score ∧
      (Credit.calculate_credit_score lg r).credit_score ≤ 850) ∧
    (∀ (rng : List ℚ) (r : Risk.RiskAssessmentRequest),
      0 ≤ Risk.assess_risk_score rng r ∧ Risk.assess_risk_score rng r ≤ 100) := by
  constructor
  · intro lg r
    simp only [Credit.calculate_credit_score]
    exact clampZ_mem 300 850 _ (by norm_num)
  · intro rng r
    simp only [Risk.assess_risk_score, Risk.calculate_overall_risk]
    exact clampQ_mem 0 100 _ (by norm_num)

/-- C4: classification is total, non-overlapping and monotonic: on [300, 850]
    the credit grade is exactly the descending band the claim lists (AAA at
    800 and up, ... , D below 400), on [0, 100] the risk level is exactly the
    ascending band listed (very_low up to 20, ..., extreme above 95), and a
    higher score never maps to a lower grade (resp. never to a lower risk
    level). -/
theorem c4_classification :
    (∀ s : ℤ, 300 ≤ s → s ≤ 850 →
      (Credit.determine_credit_grade s = .AAA ↔ 800 ≤ s) ∧
      (Credit.determine_credit_grade s = .AA ↔ 750 ≤ s ∧ s < 800) ∧
      (Credit.determine_credit_grade s = .A ↔ 700 ≤ s ∧ s < 750) ∧
      (Credit.determine_credit_grade s = .BBB ↔ 650 ≤ s ∧ s < 700) ∧
      (Credit.determine_credit_grade s = .BB ↔ 600 ≤ s ∧ s < 650) ∧
      (Credit.determine_credit_grade s = .B ↔ 550 ≤ s ∧ s < 600) ∧
      (Credit.determine_credit_grade s = .CCC ↔ 500 ≤ s ∧ s < 550) ∧
      (Credit.determine_credit_grade s = .CC ↔ 450 ≤ s ∧ s < 500) ∧
      (Credit.determine_credit_grade s = .C ↔ 400 ≤ s ∧ s < 450) ∧
      (Credit.determine_credit_grade s = .D ↔ s < 400)) ∧
    (∀ s t : ℤ, s ≤ t →
      Credit.gradeRank (Credit.determine_credit_grade s) ≤
        Credit.gradeRank (Credit.determine_credit_grade t)) ∧
    (∀ q : ℚ, 0 ≤ q → q ≤ 100 →
      (Risk.determine_risk_level q = .very_low ↔ q ≤ 20) ∧
      (Risk.determine_risk_level q = .low ↔ 20 < q ∧ q ≤ 40) ∧
      (Risk.determine_risk_level q = .medium ↔ 40 < q ∧ q ≤ 60) ∧
      (Risk.determine_risk_level q = .high ↔ 60 < q ∧ q ≤ 80) ∧
      (Risk.determine_risk_level q = .very_high ↔ 80 < q ∧ q ≤ 95) ∧
      (Risk.determine_risk_level q = .extreme ↔ 95 < q)) ∧
    (∀ p q : ℚ, p ≤ q →
      Risk.riskRank (Risk.determine_risk_level p) ≤
        Risk.riskRank (Risk.determine_risk_level q)) := by
  refine ⟨?_, ?_, ?_, ?_⟩
  · intro s h1 h2
    rcases le_or_lt 800 s with hb | hb
    · have hg : Credit.determine_credit_grade s = .AAA := by
        rw [credit_grade_eq, if_pos hb]
      rw [hg]; simp; omega
    rcases le_or_lt 750 s with hb2 | hb2
    · have hg : Credit.determine_credit_grade s = .AA := by
        rw [credit_grade_eq, if_neg (not_le.mpr hb), if_pos hb2]
      rw [hg]; simp; omega
    rcases le_or_lt 700 s with hb3 | hb3
    · have hg : Credit.determine_credit_grade s = .A := by
        rw [credit_grade_eq, if_neg (not_le.mpr hb), if_neg (not_le.mpr hb2),
          if_pos hb3]
      rw [hg]; simp; omega
    rcases le_or_lt 650 s with hb4 | hb4
    · have hg : Credit.determine_credit_grade s = .BBB := by
        rw [credit_grade_eq, if_neg (not_le.mpr hb), if_neg (not_le.mpr hb2),
          if_neg (not_le.mpr hb3), if_pos hb4]
      rw [hg]; simp; omega
    rcases le_or_lt 600 s with hb5 | hb5
    · have hg : Credit.determine_credit_grade s = .BB := by
        rw [credit_grade_eq, if_neg (not_le.mpr hb), if_neg (not_le.mpr hb2),
          if_neg (not_le.mpr hb3), if_neg (not_le.mpr hb4), if_pos hb5]
      rw [hg]; simp; omega
    rcases le_or_lt 550 s with hb6 | hb6
    · have hg : Credit.determine_credit_grade s = .B := by
        rw [credit_grade_eq, if_neg (not_le.mpr hb), if_neg (not_le.mpr hb2),
          if_neg (not_le.mpr hb3), if_neg (not_le.mpr hb4),
          if_neg (not_le.mpr hb5), if_pos hb6]
      rw [hg]; simp; omega
    rcases le_or_lt 500 s with hb7 | hb7
    · have hg : Credit.determine_credit_grade s = .CCC := by
        rw [credit_grade_eq, if_neg (not_le.mpr hb), if_neg (not_le.mpr hb2),
          if_neg (not_le.mpr hb3), if_neg (not_le.mpr hb4),
          if_neg (not_le.mpr hb5), if_neg (not_le.mpr hb6), if_pos hb7]
      rw [hg]; simp; omega
    rcases le_or_lt 450 s with hb8 | hb8
    · have hg : Credit.determine_credit_grade s = .CC := by
        rw [credit_grade_eq, if_neg (not_le.mpr hb), if_neg (not_le.mpr hb2),
          if_neg (not_le.mpr hb3), if_neg (not_le.mpr hb4),
          if_neg (not_le.mpr hb5), if_neg (not_le.mpr hb6),
          if_neg (not_le.mpr hb7), if_pos hb8]
      rw [hg]; simp; omega
    rcases le_or_lt 400 s with hb9 | hb9
    · have hg : Credit.determine_credit_grade s = .C := by
        rw [credit_grade_eq, if_neg (not_le.mpr hb), if_neg (not_le.mpr hb2),
          if_neg (not_le.mpr hb3), if_neg (not_le.mpr hb4),
          if_neg (not_le.mpr hb5), if_neg (not_le.mpr hb6),
          if_neg (not_le.mpr hb7), if_neg (not_le.mpr hb8), if_pos hb9]
      rw [hg]; simp; omega
    · have hg : Credit.determine_credit_grade s = .D := by
        rw [credit_grade_eq, if_neg (not_le.mpr hb), if_neg (not_le.mpr hb2),
          if_neg (not_le.mpr hb3), if_neg (not_le.mpr hb4),
          if_neg (not_le.mpr hb5), if_neg (not_le.mpr hb6),
          if_neg (not_le.mpr hb7), if_neg (not_le.mpr hb8),
          if_neg (not_le.mpr hb9), if_pos (le_trans (by norm_num) h1)]
      rw [hg]; simp; omega
  · exact fun s t hst =>
      firstAtLeast_rank_mono Credit.gradeRank .D Credit.grade_thresholds
        (by decide) (by decide) s t hst
  · intro q h1 h2
    rcases le_or_lt q 20 with hb | hb
    · have hg : Risk.determine_risk_level q = .very_low := by
        rw [risk_level_eq, if_pos hb]
      rw [hg]
      exact ⟨iff_of_true rfl hb,
        iff_of_false (by decide) (by rintro ⟨h3, h4⟩; linarith),
        iff_of_false (by decide) (by rintro ⟨h3, h4⟩; linarith),
        iff_of_false (by decide) (by rintro ⟨h3, h4⟩; linarith),
        iff_of_false (by decide) (by rintro ⟨h3, h4⟩; linarith),
        iff_of_false (by decide) (by intro h3; linarith)⟩
    rcases le_or_lt q 40 with hb2 | hb2
    · have hg : Risk.determine_risk_level q = .low := by
        rw [risk_level_eq, if_neg (not_le.mpr hb), if_pos hb2]
      rw [hg]
      exact ⟨iff_of_false (by decide) (by intro h3; linarith),
        iff_of_true rfl ⟨hb, hb2⟩,
        iff_of_false (by decide) (by rintro ⟨h3, h4⟩; linarith),
        iff_of_false (by decide) (by rintro ⟨h3, h4⟩; linarith),
        iff_of_false (by decide) (by rintro ⟨h3, h4⟩; linarith),
        iff_of_false (by decide) (by intro h3; linarith)⟩
    rcases le_or_lt q 60 with hb3 | hb3
    · have hg : Risk.determine_risk_level q = .medium := by
        rw [risk_level_eq, if_neg (not_le.mpr hb), if_neg (not_le.mpr hb2),
          if_pos hb3]
      rw [hg]
      exact ⟨iff_of_false (by decide) (by intro h3; linarith),
        iff_of_false (by decide) (by rintro ⟨h3, h4⟩; linarith),
        iff_of_true rfl ⟨hb2, hb3⟩,
        iff_of_false (by decide) (by rintro ⟨h3, h4⟩; linarith),
        iff_of_false (by decide) (by rintro ⟨h3, h4⟩; linarith),
        iff_of_false (by decide) (by intro h3; linarith)⟩
    rcases le_or_lt q 80 with hb4 | hb4
    · have hg : Risk.determine_risk_level q = .high := by
        rw [risk_level_eq, if_neg (not_le.mpr hb), if_neg (not_le.mpr hb2),
          if_neg (not_le.mpr hb3), if_pos hb4]
      rw [hg]
      exact ⟨iff_of_false (by decide) (by intro h3; linarith),
        iff_of_false (by decide) (by rintro ⟨h3, h4⟩; linarith),
        iff_of_false (by decide) (by rintro ⟨h3, h4⟩; linarith),
        iff_of_true rfl ⟨hb3, hb4⟩,
        iff_of_false (by decide) (by rintro ⟨h3, h4⟩; linarith),
        iff_of_false (by decide) (by intro h3; linarith)⟩
    rcases le_or_lt q 95 with hb5 | hb5
    · have hg : Risk.determine_risk_level q = .very_high := by
        rw [risk_level_eq, if_neg (not_le.mpr hb), if_neg (not_le.mpr hb2),
          if_neg (not_le.mpr hb3), if_neg (not_le.mpr hb4), if_pos hb5]
      rw [hg]
      exact ⟨iff_of_false (by decide) (by intro h3; linarith),
        iff_of_false (by decide) (by rintro ⟨h3, h4⟩; linarith),
        iff_of_false (by decide) (by rintro ⟨h3, h4⟩; linarith),
        iff_of_false (by decide) (by rintro ⟨h3, h4⟩; linarith),
        iff_of_true rfl ⟨hb4, hb5⟩,
        iff_of_false (by decide) (by intro h3; linarith)⟩
    · have hg : Risk.determine_risk_level q = .extreme := by
        rw [risk_level_eq, if_neg (not_le.mpr hb), if_neg (not_le.mpr hb2),
          if_neg (not_le.mpr hb3), if_neg (not_le.mpr hb4),
          if_neg (not_le.mpr hb5), if_pos h2]
      rw [hg]
      exact ⟨iff_of_false (by decide) (by intro h3; linarith),
        iff_of_false (by decide) (by rintro ⟨h3, h4⟩; linarith),
        iff_of_false (by decide) (by rintro ⟨h3, h4⟩; linarith),
        iff_of_false (by decide) (by rintro ⟨h3, h4⟩; linarith),
        iff_of_false (by decide) (by rintro ⟨h3, h4⟩; linarith),
        iff_of_true rfl hb5⟩
  · exact fun p q hpq =>
      firstAtMost_rank_mono .extreme Risk.risk_thresholds
        (by decide) (by decide) p q hpq

/-- Witness for C4 at concrete scores: 760 is graded AA, rank is monotone
    from 500 to 700, 50 is classified medium, rank is monotone from 30 to
    90. -/
theorem c4_witness :
    (Credit.determine_credit_grade 760 = .AA ↔ 750 ≤ (760 : ℤ) ∧ (760 : ℤ) < 800) ∧
    Credit.gradeRank (Credit.determine_credit_grade 500) ≤
      Credit.gradeRank (Credit.determine_credit_grade 700) ∧
    (Risk.determine_risk_level 50 = .medium ↔ 40 < (50 : ℚ) ∧ (50 : ℚ) ≤ 60) ∧
    Risk.riskRank (Risk.determine_risk_level 30) ≤
      Risk.riskRank (Risk.determine_risk_level 90) :=
  ⟨(c4_classification.1 760 (by norm_num) (by norm_num)).2.1,
   c4_classification.2.1 500 700 (by norm_num),
   (c4_classification.2.2.1 50 (by norm_num) (by norm_num)).2.2.1,
   c4_classification.2.2.2 30 90 (by norm_num)⟩

/-- C5: confidence starts at the base 0.5, gains only the fixed non-negative
    increments of the listed sufficiency signals and is clamped at 1.0, so it
    always lies in [0.5, 1.0] for both engines; and turning sufficiency
    signals on (credit: more than 10 financial transactions, more than 50
    blockchain transactions, a non-empty social-follower map, the
    artist-stream signal; risk: more than 30 price-history points, positive
    volatility, an asset with positive market cap, at least 4 requested
    assessment types) while keeping the others never decreases the returned
    confidence. -/
theorem c5_confidence_contract :
    (∀ r : Credit.CreditScoreRequest,
      1/2 ≤ Credit.calculate_confidence r ∧ Credit.calculate_confidence r ≤ 1) ∧
    (∀ r1 r2 : Credit.CreditScoreRequest,
      (r1.financial_history.total_transactions > 10 →
        r2.financial_history.total_transactions > 10) →
      (r1.blockchain_metrics.transaction_count > 50 →
        r2.blockchain_metrics.transaction_count > 50) →
      (r1.social_metrics.social_media_followers ≠ [] →
        r2.social_metrics.social_media_followers ≠ []) →
      ((Credit.confidence_signals r1).2.2.2 = true →
        (Credit.confidence_signals r2).2.2.2 = true) →
      Credit.calculate_confidence r1 ≤ Credit.calculate_confidence r2) ∧
    (∀ r : Risk.RiskAssessmentRequest,
      1/2 ≤ Risk.calculate_confidence r ∧ Risk.calculate_confidence r ≤ 1) ∧
    (∀ r1 r2 : Risk.RiskAssessmentRequest,
      (r1.market_data.price_history.length > 30 →
        r2.market_data.price_history.length > 30) →
      (r1.market_data.volatility > 0 → r2.market_data.volatility > 0) →
      ((Risk.confidence_signals r1).2.2.1 = true →
        (Risk.confidence_signals r2).2.2.1 = true) →
      (r1.assessment_types.length ≥ 4 → r2.assessment_types.length ≥ 4) →
      Risk.calculate_confidence r1 ≤ Risk.calculate_confidence r2) := by
  refine ⟨?_, ?_, ?_, ?_⟩
  · intro r
    rw [credit_confidence_factor]
    exact credit_confidence_from_signals_range _
  · intro r1 r2 h1 h2 h3 h4
    rw [credit_confidence_factor r1, credit_confidence_factor r2]
    refine credit_confidence_from_signals_mono ?_ ?_ ?_ h4 <;>
      simp only [Credit.confidence_signals, decide_eq_true_eq]
    · exact h1
    · exact h2
    · exact h3
  · intro r
    rw [risk_confidence_factor]
    exact risk_confidence_from_signals_range _
  · intro r1 r2 h1 h2 h3 h4
    rw [risk_confidence_factor r1, risk_confidence_factor r2]
    refine risk_confidence_from_signals_mono ?_ ?_ h3 ?_ <;>
      simp only [Risk.confidence_signals, decide_eq_true_eq]
    · exact h1
    · exact h2
    · exact h4

/-- Witness for C5: the all-zero artist request has every signal off, the
    enriched request below has every signal on, and the theorem applies. -/
theorem c5_witness :
    (1/2 ≤ Credit.calculate_confidence Credit.reqZeroArtist ∧
      Credit.calculate_confidence Credit.reqZeroArtist ≤ 1) ∧
    Credit.calculate_confidence Credit.reqZeroArtist ≤
      Credit.calculate_confidence
        ⟨"u4", .artist, ⟨0, 0, 0, 20, 0⟩, some ⟨2000, 0, 0, 0, 0, 0, 0⟩, none,
         ⟨0, 60, 0, 0, false, 0, 0⟩, ⟨[("x", 5)], 0, 0, 0, 0⟩⟩ ∧
    (1/2 ≤ Risk.calculate_confidence Risk.reqRiskOp ∧
      Risk.calculate_confidence Risk.reqRiskOp ≤ 1) ∧
    Risk.calculate_confidence Risk.reqRiskOp ≤
      Risk.calculate_confidence
        ⟨"a2", some ⟨"as", .music_token, 1, 5, 3⟩,
         ⟨List.replicate 31 (), 1/2, 0, [], 0⟩, .short_term, 0,
         [.market, .credit, .liquidity, .operational]⟩ :=
  ⟨c5_confidence_contract.1 Credit.reqZeroArtist,
   c5_confidence_contract.2.1 Credit.reqZeroArtist _
     (fun _ => by norm_num) (fun _ => by norm_num) (fun _ => by simp)
     (fun _ => by norm_num [Credit.confidence_signals, Credit.reqZeroArtist]),
   c5_confidence_contract.2.2.1 Risk.reqRiskOp,
   c5_confidence_contract.2.2.2 Risk.reqRiskOp _
     (fun _ => by norm_num) (fun _ => by norm_num)
     (fun _ => by norm_num [Risk.confidence_signals])
     (fun _ => by norm_num)⟩

/-- C7: for every batch within the size limit (both endpoints are batchCall
    at limits 100 and 50), the call succeeds with one result entry per
    request, entry i carries index i and exactly the outcome of scoring
    requests[i] — a failing item becomes an inline error entry while every
    other item is still processed — and the summary counts the success and
    failure entries. -/
theorem c7_batch_alignment {α β : Type} (limit : ℕ)
    (score : α → Except String β) (reqs : List α)
    (hle : reqs.length ≤ limit) :
    ∃ resp : MMF.BatchResponse β,
      MMF.batchCall limit score reqs = .ok resp ∧
      resp.results.length = reqs.length ∧
      (∀ i : ℕ, resp.results.get? i =
        (reqs.get? i).map (fun r => ⟨i, score r⟩)) ∧
      resp.summary.total_requests = reqs.length ∧
      resp.summary.successful =
        resp.results.countP (fun it => it.result.isOk) ∧
      resp.summary.failed =
        resp.results.countP (fun it => !(it.result.isOk)) := by
  refine ⟨⟨MMF.batchItems score 0 reqs,
    ⟨reqs.length,
     (MMF.batchItems score 0 reqs).countP (fun it => it.result.isOk),
     reqs.length -
       (MMF.batchItems score 0 reqs).countP (fun it => it.result.isOk)⟩⟩,
    ?_, ?_, ?_, rfl, rfl, ?_⟩
  · simp only [MMF.batchCall, MMF.batchBody]
    rw [if_neg (by omega)]
  · exact batchItems_length score 0 reqs
  · intro i
    simpa using batchItems_get score reqs 0 i
  · have hsplit := countP_split (fun it => it.result.isOk)
      (MMF.batchItems score 0 reqs)
    have hlen := batchItems_length score 0 reqs
    dsimp only
    omega

/-- Witness for C7: a two-item batch in which the second item fails is still
    fully processed, index-aligned and correctly summarized. -/
theorem c7_witness :
    ([0, 1].length ≤ 100) ∧
    (∃ resp : MMF.BatchResponse ℕ,
      MMF.batchCall 100
        (fun n : ℕ => if n = 0 then .ok 0 else .error "boom") [0, 1] =
        .ok resp ∧
      resp.results.length = [0, 1].length ∧
      (∀ i : ℕ, resp.results.get? i =
        ([0, 1].get? i).map
          (fun r => ⟨i, if r = 0 then .ok 0 else .error "boom"⟩)) ∧
      resp.summary.total_requests = [0, 1].length ∧
      resp.summary.successful =
        resp.results.countP (fun it => it.result.isOk) ∧
      resp.summary.failed =
        resp.results.countP (fun it => !(it.result.isOk))) :=
  ⟨by norm_num,
   c7_batch_alignment 100 (fun n : ℕ => if n = 0 then .ok 0 else .error "boom")
     [0, 1] (by norm_num)⟩

/-- C8, counterexample: a stress test over zero asset identifiers and one
    scenario does not return the claimed 0 individual and 1 portfolio
    entries — the portfolio loop evaluates max([]) and the endpoint fails
    with an internal error instead; and with a repeated asset identifier the
    results dict collapses the duplicate, returning 1 individual entry for
    N = 2 identifiers. -/
theorem c8_counterexample :
    Risk.perform_stress_test [] ["market_crash"] (1/2) [] = none ∧
    (Risk.perform_stress_test ["a", "a"] ["market_crash"] (1/2)
        [1, 2, 3, 4, 5, 6]).map (fun d => d.individual_assets.length) =
      some 1 ∧
    (1 : ℕ) ≠ 2 := by
  refine ⟨rfl, rfl, by norm_num⟩

end MMF
